import Mathlib

/-!
Shallow embedding of `custom_components/custom_conversation/cc_llm.py`
(`async_update_llm_data`), the multi-provider tool/prompt aggregation and
composition engine, together with theorems settling the specification claims.

The Python function is modelled as a pure function from its external
collaborators (provider resolution, base-prompt rendering) and the turn inputs
to either a turn-level error or the resulting turn state.  Awaited collaborator
calls that may raise `HomeAssistantError` are modelled as `Except` values.
-/

set_option autoImplicit false

deriving instance DecidableEq for Except

namespace CCLLM

/-- Kind of the underlying api object of an `APIInstance`: the distinguished
in-process `CustomLLMAPI`, or a generically resolved api.  This encodes the
`isinstance(api.api, CustomLLMAPI)` runtime check as data. -/
inductive APIKind where
  | custom
  | generic
deriving DecidableEq, Repr

/-- Identity of an api object (`api_instance.api` in the source): its kind plus
an identifying name. -/
structure APIIdentity where
  kind : APIKind
  name : String
deriving DecidableEq, Repr

/-- The errors of the Home Assistant hierarchy that the engine handles:
`TemplateError` is a subclass of `HomeAssistantError`, so the collector's
`except HomeAssistantError` catches both, while the composer's
`except TemplateError` catches only the first. -/
inductive HAError where
  | templateErr (msg : String)
  | otherErr (msg : String)
deriving DecidableEq, Repr

/-- Result of awaiting an api prompt or the base prompt: either plain text or a
(cache-handle, text) pair (a Langfuse prompt object paired with its text). -/
inductive PromptResult where
  | plain (text : String)
  | cached (handle : String) (text : String)
deriving DecidableEq, Repr

/-- The text of a prompt result (`prompt_text` after the tuple unwrap). -/
def PromptResult.text : PromptResult → String
  | .plain t => t
  | .cached _ t => t

/-- The cache handle of a prompt result, when present (`prompt_object` after
the tuple unwrap). -/
def PromptResult.handleOpt : PromptResult → Option String
  | .plain _ => none
  | .cached h _ => some h

/-- An invocable tool descriptor; the engine treats it as an opaque value. -/
structure Tool where
  name : String
  schema : String
deriving DecidableEq, Repr

/-- The serializer attached to a synthetic api instance
(`llm.selector_serializer` in the source), modelled as an opaque tag. -/
inductive SerializerKind where
  | selector
deriving DecidableEq, Repr

/-- The per-turn invocation environment (`llm.LLMContext`). -/
structure LLMContext where
  platform : String
  context_user_id : Option String
  language : String
  assistant : String
  device_id : Option String
deriving DecidableEq, Repr

/-- An `llm.APIInstance`: the api identity, the result of awaiting its
`api_prompt` (which may raise a `HomeAssistantError`), its context, its tools,
and an optional custom serializer. -/
structure APIInstance where
  api : APIIdentity
  api_prompt : Except HAError PromptResult
  llm_context : LLMContext
  tools : List Tool
  custom_serializer : Option SerializerKind
deriving DecidableEq, Repr

/-- The `isinstance(api.api, CustomLLMAPI)` check on a resolved instance. -/
def isCustomAPI (a : APIInstance) : Bool :=
  match a.api.kind with
  | APIKind.custom => true
  | APIKind.generic => false

/-- The prompt text successfully collected from an instance, if awaiting its
`api_prompt` did not raise. -/
def fetchedText (a : APIInstance) : Option String :=
  match a.api_prompt with
  | Except.ok pr => some pr.text
  | Except.error _ => none

/-- A message of the turn's message list (`chat_log.content`). -/
inductive Content where
  | system (content : String)
  | user (content : String)
  | assistant (content : String)
deriving DecidableEq, Repr

/-- The mutable turn state (`ChatLog`) as read and written by the engine. -/
structure ChatLog where
  conversation_id : String
  extra_system_prompt : Option String
  content : List Content
  llm_api : Option APIInstance
deriving DecidableEq, Repr

/-- The conversation input fields the engine reads (`ConversationInput`). -/
structure UserInput where
  context_user_id : Option String
  language : String
  device_id : Option String
  extra_system_prompt : Option String
deriving DecidableEq, Repr

/-- One trace record emitted via `trace.async_conversation_trace_append`. -/
structure TraceEvent where
  messages : List Content
  tools : Option (List Tool)
deriving DecidableEq, Repr

/-- Everything observable the function produces on success: the mutated turn
state, the emitted trace records, the Langfuse tags added to the current trace,
and the returned `prompt_object` cache handle. -/
structure TurnOutput where
  chat_log : ChatLog
  trace_events : List TraceEvent
  langfuse_tags : List String
  prompt_object : Option String
deriving DecidableEq, Repr

/-- The ways the function can terminate abnormally: a `ConverseError` built on
the templating-error path (carrying the conversation id, the error message and
the user-facing response message), an uncaught `HomeAssistantError`, or the
`IndexError` from assigning `chat_log.content[0]` on an empty list. -/
inductive TurnError where
  | converse (conversation_id : String) (message : String)
      (response_error_message : String)
  | haError (e : HAError)
  | indexError
deriving DecidableEq, Repr

/-- External collaborators of the engine: constructing the distinguished
in-process api (`CustomLLMAPI(...)` followed by `async_get_api_instance`, with
any Langfuse client already attached), resolving a generic api by name
(`llm.async_get_api`), and rendering the base prompt
(`prompt_manager.async_get_base_prompt`). -/
structure Deps where
  resolveCustom : LLMContext → Except HAError APIInstance
  resolveGeneric : String → LLMContext → Except HAError APIInstance
  basePrompt : Except HAError PromptResult

/-- Modelled from the spec: the reserved sentinel name identifying the
distinguished local provider (`LLM_API_ID` in `const.py`, a module not
included in the sources; only its identity matters). -/
def LLM_API_ID : String := "custom_llm_api"

/-- Modelled from the spec: the integration domain constant (`DOMAIN` in
`const.py`, a module not included in the sources). -/
def DOMAIN : String := "custom_conversation"

/-- The per-name dispatch of the collector loop: the sentinel name constructs
the distinguished in-process api, any other name goes through the generic
registry lookup. -/
def resolveName (deps : Deps) (ctx : LLMContext) (name : String) :
    Except HAError APIInstance :=
  if name = LLM_API_ID then deps.resolveCustom ctx else deps.resolveGeneric name ctx

/-- The accumulators of the collector loop: resolved instances, the running
tool concatenation, the collected prompt texts, and the logged failures. -/
structure CollectResult where
  api_instances : List APIInstance
  all_tools : List Tool
  api_prompts : List String
  logged : List (String × HAError)
deriving DecidableEq, Repr

/-- The collector loop (source lines 60-105): for each name in order, resolve
it; on success append the instance and extend the tool list, then await its
`api_prompt` and append the unwrapped text.  Any `HomeAssistantError` raised in
the body — resolution failure or prompt-fetch failure — is logged and the loop
continues with the next name; note that a prompt-fetch failure happens after
the instance and its tools were already appended. -/
def collectAPIs (resolve : String → Except HAError APIInstance) :
    List String → CollectResult
  | [] => ⟨[], [], [], []⟩
  | n :: rest =>
    match resolve n with
    | Except.error e =>
      let r := collectAPIs resolve rest
      ⟨r.api_instances, r.all_tools, r.api_prompts, (n, e) :: r.logged⟩
    | Except.ok inst =>
      let r := collectAPIs resolve rest
      match inst.api_prompt with
      | Except.error e =>
        ⟨inst :: r.api_instances, inst.tools ++ r.all_tools, r.api_prompts,
          (n, e) :: r.logged⟩
      | Except.ok pr =>
        ⟨inst :: r.api_instances, inst.tools ++ r.all_tools,
          pr.text :: r.api_prompts, r.logged⟩

/-- The prompt composer (source lines 107-153): the three mutually exclusive
composition branches, selected by the shape of the resolved instances.  Returns
the composed prompt text and the optional `prompt_object` cache handle, or the
error the branch raised (`TemplateError` and other `HomeAssistantError`s are
separated by the caller). -/
def composePrompt (basePrompt : Except HAError PromptResult)
    (api_instances : List APIInstance) (api_prompts : List String) :
    Except HAError (String × Option String) :=
  if api_instances.any isCustomAPI && api_instances.length == 1 then
    match api_instances.head? with
    | none => Except.error (HAError.otherErr "IndexError")
    | some llm_api =>
      match llm_api.api_prompt with
      | Except.error e => Except.error e
      | Except.ok pr => Except.ok (pr.text, pr.handleOpt)
  else if api_instances.isEmpty then
    match basePrompt with
    | Except.error e => Except.error e
    | Except.ok pr => Except.ok (pr.text, pr.handleOpt)
  else
    match basePrompt with
    | Except.error e => Except.error e
    | Except.ok bp =>
      Except.ok (String.intercalate "\n" (bp.text :: api_prompts), bp.handleOpt)

/-- Python truthiness of an optional string: `None` and `""` are falsy. -/
def pyTruthy : Option String → Bool
  | none => false
  | some s => !(s == "")

/-- Python `a or b` on optional strings: `b` when `a` is falsy, else `a`. -/
def pyOr (a b : Option String) : Option String :=
  if pyTruthy a then a else b

/-- The `LLMContext` built at the top of the function from the user input. -/
def mkLLMContext (ui : UserInput) : LLMContext :=
  ⟨DOMAIN, ui.context_user_id, ui.language, "conversation", ui.device_id⟩

/-- Selection of the extra system prompt (source lines 168-171): the per-call
override is preferred over the value stored on the turn, by truthiness. -/
def selectExtra (ui : UserInput) (cl : ChatLog) : Option String :=
  pyOr ui.extra_system_prompt cl.extra_system_prompt

/-- Appending of the extra system prompt (source lines 173-176): when truthy it
is appended after a single newline. -/
def applyExtra (p : String) (extra : Option String) : String :=
  if pyTruthy extra then p ++ "\n" ++ extra.getD "" else p

/-- The provider unifier (source lines 179-198): no instance installs nothing;
a single instance is installed unchanged; several instances install a synthetic
`APIInstance` referencing the first instance's api, carrying the final prompt,
the turn's context, the combined tool list and the selector serializer. -/
def unifyProvider (prompt : String) (ctx : LLMContext) (c : CollectResult) :
    Option APIInstance :=
  match c.api_instances with
  | [] => none
  | [single] => some single
  | first :: _ :: _ =>
    some ⟨first.api, Except.ok (PromptResult.plain prompt), ctx, c.all_tools,
      some SerializerKind.selector⟩

/-- The collector run of a turn: the names guarded by the Python
`if llm_api_names:` (which makes `None` and `[]` equivalent, reflected by
`getD []`), each resolved through the name dispatch under the turn's
context. -/
def runCollect (deps : Deps) (ui : UserInput) (names : Option (List String)) :
    CollectResult :=
  collectAPIs (resolveName deps (mkLLMContext ui)) (names.getD [])

/-- The successful turn state (source lines 168-209) for a composed prompt
`p0` and cache handle `po`: the extra system prompt is selected and, when
truthy, appended and tagged; the effective provider is installed; element 0 of
the message list is replaced by a system message with the final prompt; one
trace record carrying the new message list and the effective tools is
emitted; `po` is returned. -/
def successOutput (deps : Deps) (ui : UserInput) (cl : ChatLog)
    (names : Option (List String)) (p0 : String) (po : Option String) :
    TurnOutput :=
  let extra := selectExtra ui cl
  let prompt := applyExtra p0 extra
  let tags := if pyTruthy extra then ["extra_system_prompt"] else []
  let llm_api := unifyProvider prompt (mkLLMContext ui) (runCollect deps ui names)
  let newContent := cl.content.set 0 (Content.system prompt)
  ⟨⟨cl.conversation_id, extra, newContent, llm_api⟩,
    [⟨newContent, llm_api.map (fun a => a.tools)⟩],
    tags, po⟩

/-- The whole of `async_update_llm_data` as a pure function of its
collaborators and inputs.  A `TemplateError` escaping the composer becomes a
`ConverseError` carrying the conversation id; any other `HomeAssistantError`
there propagates; assigning `chat_log.content[0]` on an empty message list is
an `IndexError`; otherwise the turn state of `successOutput` is produced. -/
def async_update_llm_data (deps : Deps) (user_input : UserInput)
    (chat_log : ChatLog) (llm_api_names : Option (List String)) :
    Except TurnError TurnOutput :=
  let c := runCollect deps user_input llm_api_names
  match composePrompt deps.basePrompt c.api_instances c.api_prompts with
  | Except.error (HAError.templateErr _) =>
    Except.error (TurnError.converse chat_log.conversation_id
      "Error rendering prompt" "Sorry, I had a problem with my template")
  | Except.error e => Except.error (TurnError.haError e)
  | Except.ok (p0, po) =>
    if chat_log.content.isEmpty then Except.error TurnError.indexError
    else Except.ok (successOutput deps user_input chat_log llm_api_names p0 po)

/-- The final prompt as published on the turn: the text of the leading system
message of the mutated message list. -/
def TurnOutput.finalPrompt (o : TurnOutput) : Option String :=
  match o.chat_log.content.head? with
  | some (Content.system s) => some s
  | _ => none

/-! Concrete inputs used to exercise the theorems on closed instances. -/

/-- A concrete turn context. -/
def wCtx : LLMContext := ⟨DOMAIN, none, "en", "conversation", none⟩

/-- A concrete tool of the distinguished api. -/
def wToolC : Tool := ⟨"custom_tool", "schema_c"⟩

/-- A concrete tool of the weather api. -/
def wToolW : Tool := ⟨"get_weather", "schema_w"⟩

/-- A concrete tool of the traffic api. -/
def wToolT : Tool := ⟨"get_traffic", "schema_t"⟩

/-- A concrete tool of the api whose prompt fetch fails. -/
def wToolB : Tool := ⟨"broken_tool", "schema_b"⟩

/-- A concrete distinguished api instance with a cached (pair-shaped) prompt. -/
def wInstCustom : APIInstance :=
  ⟨⟨APIKind.custom, "custom_llm_api"⟩,
    Except.ok (PromptResult.cached "handle1" "Custom complete prompt."),
    wCtx, [wToolC], none⟩

/-- A concrete generic api instance named weather. -/
def wInstWeather : APIInstance :=
  ⟨⟨APIKind.generic, "weather"⟩,
    Except.ok (PromptResult.plain "Tools: weather."), wCtx, [wToolW], none⟩

/-- A concrete generic api instance named traffic. -/
def wInstTraffic : APIInstance :=
  ⟨⟨APIKind.generic, "traffic"⟩,
    Except.ok (PromptResult.plain "Tools: traffic."), wCtx, [wToolT], none⟩

/-- A concrete generic api instance whose prompt fetch raises. -/
def wInstBroken : APIInstance :=
  ⟨⟨APIKind.generic, "broken"⟩,
    Except.error (HAError.otherErr "prompt fetch failed"), wCtx, [wToolB], none⟩

/-- A concrete generic resolver: weather, traffic and broken resolve, every
other name fails. -/
def wResolve : String → Except HAError APIInstance := fun n =>
  if n = "weather" then Except.ok wInstWeather
  else if n = "traffic" then Except.ok wInstTraffic
  else if n = "broken" then Except.ok wInstBroken
  else Except.error (HAError.otherErr "no such api")

/-- Concrete collaborators with a rendering base prompt. -/
def wDeps : Deps :=
  ⟨fun _ => Except.ok wInstCustom, fun n _ => wResolve n,
    Except.ok (PromptResult.plain "Base.")⟩

/-- Concrete collaborators whose base prompt rendering raises a templating
error. -/
def wDepsTemplateFail : Deps :=
  ⟨fun _ => Except.ok wInstCustom, fun n _ => wResolve n,
    Except.error (HAError.templateErr "bad template")⟩

/-- A concrete user input with no extra system prompt. -/
def wUI : UserInput := ⟨none, "en", none, none⟩

/-- A concrete user input carrying an extra system prompt override. -/
def wUIExtra : UserInput := ⟨none, "en", none, some "Extra instructions."⟩

/-- A concrete user input whose extra system prompt override is the empty
string. -/
def wUIEmptyExtra : UserInput := ⟨none, "en", none, some ""⟩

/-- A concrete turn state with a two-message list and no stored extra system
prompt. -/
def wCL : ChatLog :=
  ⟨"conv1", none, [Content.system "old", Content.user "hi"], none⟩

/-- A concrete turn state holding a stored extra system prompt. -/
def wCLStored : ChatLog :=
  ⟨"conv1", some "Stored extra.", [Content.system "old", Content.user "hi"], none⟩

/-! Structural lemmas about the collector. -/

/-- The collector's resolved instances are exactly the successfully resolved
names, in input order. -/
theorem collect_api_instances (resolve : String → Except HAError APIInstance)
    (ns : List String) :
    (collectAPIs resolve ns).api_instances =
      ns.filterMap (fun n => (resolve n).toOption) := by
  induction ns with
  | nil => rfl
  | cons n rest ih =>
    rw [List.filterMap_cons]
    cases hr : resolve n with
    | error e => simpa [collectAPIs, hr, Except.toOption] using ih
    | ok inst =>
      cases hp : inst.api_prompt with
      | error e => simpa [collectAPIs, hr, hp, Except.toOption] using ih
      | ok pr => simpa [collectAPIs, hr, hp, Except.toOption] using ih

/-- The collector's tool accumulator is the concatenation of the resolved
instances' tool lists, in resolution order. -/
theorem collect_all_tools (resolve : String → Except HAError APIInstance)
    (ns : List String) :
    (collectAPIs resolve ns).all_tools =
      ((collectAPIs resolve ns).api_instances.map (fun a => a.tools)).flatten := by
  induction ns with
  | nil => rfl
  | cons n rest ih =>
    cases hr : resolve n with
    | error e => simpa [collectAPIs, hr] using ih
    | ok inst =>
      cases hp : inst.api_prompt with
      | error e => simpa [collectAPIs, hr, hp] using ih
      | ok pr => simpa [collectAPIs, hr, hp] using ih

/-- The collector's prompt accumulator holds the texts of exactly those
resolved instances whose prompt fetch succeeded, in resolution order. -/
theorem collect_api_prompts (resolve : String → Except HAError APIInstance)
    (ns : List String) :
    (collectAPIs resolve ns).api_prompts =
      (collectAPIs resolve ns).api_instances.filterMap fetchedText := by
  induction ns with
  | nil => rfl
  | cons n rest ih =>
    cases hr : resolve n with
    | error e => simpa [collectAPIs, hr] using ih
    | ok inst =>
      cases hp : inst.api_prompt with
      | error e => simpa [collectAPIs, hr, hp, fetchedText] using ih
      | ok pr => simpa [collectAPIs, hr, hp, fetchedText] using ih

/-- Every name whose resolution raises is recorded in the collector's log with
the error it raised. -/
theorem collect_logged_of_error (resolve : String → Except HAError APIInstance)
    {n : String} {e : HAError} :
    ∀ {ns : List String}, n ∈ ns → resolve n = Except.error e →
      (n, e) ∈ (collectAPIs resolve ns).logged := by
  intro ns
  induction ns with
  | nil => intro h; exact absurd h (List.not_mem_nil n)
  | cons m rest ih =>
    intro hmem hres
    rcases List.mem_cons.mp hmem with heq | hmem2
    · subst heq
      simp only [collectAPIs, hres]
      exact List.mem_cons_self _ _
    · cases hr : resolve m with
      | error e2 =>
        simp only [collectAPIs, hr]
        exact List.mem_cons_of_mem _ (ih hmem2 hres)
      | ok inst =>
        cases hp : inst.api_prompt with
        | error e2 =>
          simp only [collectAPIs, hr, hp]
          exact List.mem_cons_of_mem _ (ih hmem2 hres)
        | ok pr =>
          simp only [collectAPIs, hr, hp]
          exact ih hmem2 hres

/-- A `filterMap` whose function succeeds on every element in the stated way
returns exactly the stated results. -/
theorem filterMap_eq_of_map_eq_map_some {α β : Type} (f : α → Option β)
    (l : List α) (fr : List β) (h : l.map f = fr.map some) :
    l.filterMap f = fr := by
  induction l generalizing fr with
  | nil => cases fr with | nil => rfl | cons b fr => simp at h
  | cons a l ih =>
    cases fr with
    | nil => simp at h
    | cons b fr =>
      simp only [List.map_cons, List.cons.injEq] at h
      rw [List.filterMap_cons_some h.1, ih fr h.2]

/-- A `filterMap` that drops at least one member of the list is strictly
shorter than the list. -/
theorem length_filterMap_lt_of_mem_none {α β : Type} (f : α → Option β) {a : α}
    (l : List α) (hmem : a ∈ l) (hnone : f a = none) :
    (l.filterMap f).length < l.length := by
  induction l with
  | nil => cases hmem
  | cons b t ih =>
    rcases List.mem_cons.mp hmem with heq | hmem2
    · subst heq
      rw [List.filterMap_cons_none hnone]
      exact Nat.lt_succ_of_le (List.length_filterMap_le f t)
    · cases hb : f b with
      | none =>
        rw [List.filterMap_cons_none hb]
        exact Nat.lt_succ_of_lt (ih hmem2)
      | some c =>
        rw [List.filterMap_cons_some hb, List.length_cons, List.length_cons]
        exact Nat.succ_lt_succ (ih hmem2)

/-! Structural lemmas about the composer and the assembled turn. -/

/-- With no resolved instance and a rendered base prompt, the composer unwraps
the base prompt. -/
theorem composePrompt_nil_ok (pr : PromptResult) (prompts : List String) :
    composePrompt (Except.ok pr) [] prompts = Except.ok (pr.text, pr.handleOpt) := rfl

/-- With no resolved instance, a base prompt failure passes through the
composer. -/
theorem composePrompt_nil_error (e : HAError) (prompts : List String) :
    composePrompt (Except.error e) [] prompts = Except.error e := rfl

/-- With exactly one resolved instance whose api is the distinguished one, the
composer returns that instance's own unwrapped prompt whatever the base prompt
collaborator would do, and propagates a fetch failure. -/
theorem composePrompt_single_custom (bp : Except HAError PromptResult)
    (inst : APIInstance) (prompts : List String)
    (hk : inst.api.kind = APIKind.custom) :
    composePrompt bp [inst] prompts =
      match inst.api_prompt with
      | Except.error e => Except.error e
      | Except.ok pr => Except.ok (pr.text, pr.handleOpt) := by
  have hcust : isCustomAPI inst = true := by unfold isCustomAPI; rw [hk]
  unfold composePrompt
  simp [hcust]

/-- The multi/external selection condition is false exactly when the shape of
the resolved instances demands the multi/external policy. -/
theorem multi_cond_false (insts : List APIInstance)
    (hshape : 2 ≤ insts.length ∨
      (insts.length = 1 ∧ ∀ a ∈ insts, a.api.kind ≠ APIKind.custom)) :
    (insts.any isCustomAPI && insts.length == 1) = false := by
  rcases hshape with h2 | ⟨h1, hall⟩
  · have hlen : (insts.length == 1) = false := by
      rw [beq_eq_false_iff_ne]
      omega
    simp [hlen]
  · have hany : insts.any isCustomAPI = false := by
      rw [List.any_eq_false]
      intro a ha
      have hne := hall a ha
      unfold isCustomAPI
      cases hk : a.api.kind with
      | custom => exact absurd hk hne
      | generic => simp
    simp [hany]

/-- When the multi/external branch is selected, the composer concatenates the
rendered base prompt with the collected prompt texts, newline-separated, and
reports the base prompt's cache handle. -/
theorem composePrompt_multi (bp : Except HAError PromptResult)
    (insts : List APIInstance) (prompts : List String)
    (hne : insts ≠ [])
    (hnot : (insts.any isCustomAPI && insts.length == 1) = false) :
    composePrompt bp insts prompts =
      match bp with
      | Except.error e => Except.error e
      | Except.ok b =>
        Except.ok (String.intercalate "\n" (b.text :: prompts), b.handleOpt) := by
  unfold composePrompt
  rw [hnot]
  simp [List.isEmpty_iff, hne]

/-- Destructuring of a successful run: composition succeeded, the message
list was non-empty, and the output is the assembled success state. -/
theorem run_ok_elim (deps : Deps) (ui : UserInput) (cl : ChatLog)
    (names : Option (List String)) (out : TurnOutput)
    (hrun : async_update_llm_data deps ui cl names = Except.ok out) :
    ∃ p0 po,
      composePrompt deps.basePrompt (runCollect deps ui names).api_instances
          (runCollect deps ui names).api_prompts = Except.ok (p0, po) ∧
      cl.content ≠ [] ∧ out = successOutput deps ui cl names p0 po := by
  simp only [async_update_llm_data] at hrun
  cases hc : composePrompt deps.basePrompt (runCollect deps ui names).api_instances
      (runCollect deps ui names).api_prompts with
  | error e => cases e <;> simp [hc] at hrun
  | ok v =>
    obtain ⟨p0, po⟩ := v
    simp only [hc] at hrun
    by_cases hcl : cl.content.isEmpty
    · simp [hcl] at hrun
    · have hne : cl.content ≠ [] := by
        intro h
        rw [h] at hcl
        exact hcl rfl
      simp only [hcl, Bool.false_eq_true, if_false, Except.ok.injEq] at hrun
      exact ⟨p0, po, rfl, hne, hrun.symm⟩

/-- On a non-empty message list the published final prompt of the success
state is the composed prompt with the extra system prompt applied. -/
theorem finalPrompt_successOutput (deps : Deps) (ui : UserInput) (cl : ChatLog)
    (names : Option (List String)) (p0 : String) (po : Option String)
    (h : cl.content ≠ []) :
    (successOutput deps ui cl names p0 po).finalPrompt =
      some (applyExtra p0 (selectExtra ui cl)) := by
  cases hcl : cl.content with
  | nil => exact absurd hcl h
  | cons a t => simp [successOutput, TurnOutput.finalPrompt, hcl]

/-- When the sole-distinguished branch is not selected, a failing base prompt
passes through the composer unchanged. -/
theorem composePrompt_base_error (e : HAError) (insts : List APIInstance)
    (prompts : List String)
    (hnot : (insts.any isCustomAPI && insts.length == 1) = false) :
    composePrompt (Except.error e) insts prompts = Except.error e := by
  unfold composePrompt
  rw [hnot]
  simp only [Bool.false_eq_true, if_false]
  by_cases hi : insts.isEmpty <;> simp [hi]

/-- On a successful run with a truthy selected extra system prompt, the final
prompt is the composed prompt followed by a newline and the extra prompt, and
the selected value is persisted on the turn state. -/
theorem run_extra_applied (deps : Deps) (ui : UserInput) (cl : ChatLog)
    (names : Option (List String)) (out : TurnOutput) (p0 : String)
    (po : Option String) (s : String)
    (hcomp : composePrompt deps.basePrompt (runCollect deps ui names).api_instances
        (runCollect deps ui names).api_prompts = Except.ok (p0, po))
    (hsel : selectExtra ui cl = some s) (hs : s ≠ "")
    (hrun : async_update_llm_data deps ui cl names = Except.ok out) :
    out.finalPrompt = some (p0 ++ "\n" ++ s)
    ∧ out.chat_log.extra_system_prompt = some s := by
  obtain ⟨p0', po', hcomp', hne, hout⟩ := run_ok_elim deps ui cl names out hrun
  rw [hcomp] at hcomp'
  simp only [Except.ok.injEq, Prod.mk.injEq] at hcomp'
  obtain ⟨h1, h2⟩ := hcomp'
  subst hout
  have htr : pyTruthy (some s) = true := by simp [pyTruthy, hs]
  constructor
  · rw [finalPrompt_successOutput deps ui cl names p0' po' hne]
    simp [applyExtra, htr, hsel, h1]
  · simp [successOutput, hsel]

/-! The specification claims. -/

/-- Claim C1: for every turn in which two or more providers resolve, or
exactly one resolves and it is not the distinguished local provider, the
composed prompt (before any extra-system-prompt override is appended) equals
the rendered base prompt followed by every resolved provider's prompt
fragment in resolution order, each adjacent pair of parts separated by exactly
one newline.  The fragments are the successfully fetched prompt texts of all
resolved providers, as `hfrags` states. -/
theorem C1_multi_policy_prompt (resolve : String → Except HAError APIInstance)
    (ns : List String) (bp : PromptResult) (frags : List String)
    (hshape : 2 ≤ (collectAPIs resolve ns).api_instances.length ∨
      ((collectAPIs resolve ns).api_instances.length = 1 ∧
        ∀ a ∈ (collectAPIs resolve ns).api_instances, a.api.kind ≠ APIKind.custom))
    (hfrags : (collectAPIs resolve ns).api_instances.map fetchedText
        = frags.map some) :
    composePrompt (Except.ok bp) (collectAPIs resolve ns).api_instances
        (collectAPIs resolve ns).api_prompts =
      Except.ok (String.intercalate "\n" (bp.text :: frags), bp.handleOpt) := by
  have hcond := multi_cond_false _ hshape
  have hne : (collectAPIs resolve ns).api_instances ≠ [] := by
    intro h
    rw [h] at hshape
    rcases hshape with h2 | ⟨h1, -⟩
    · simp at h2
    · simp at h1
  rw [collect_api_prompts, filterMap_eq_of_map_eq_map_some _ _ _ hfrags,
    composePrompt_multi _ _ _ hne hcond]

/-- Concrete instance of `C1_multi_policy_prompt`: two generic providers. -/
theorem C1_witness :
    2 ≤ (collectAPIs wResolve ["weather", "traffic"]).api_instances.length
    ∧ (collectAPIs wResolve ["weather", "traffic"]).api_instances.map fetchedText
        = (["Tools: weather.", "Tools: traffic."].map some)
    ∧ composePrompt (Except.ok (PromptResult.plain "Base."))
        (collectAPIs wResolve ["weather", "traffic"]).api_instances
        (collectAPIs wResolve ["weather", "traffic"]).api_prompts =
      Except.ok ("Base.\nTools: weather.\nTools: traffic.", none) :=
  ⟨by decide, by decide,
    C1_multi_policy_prompt wResolve ["weather", "traffic"]
      (PromptResult.plain "Base.") ["Tools: weather.", "Tools: traffic."]
      (Or.inl (by decide)) (by decide)⟩

/-- Claim C2: for every turn in which exactly one provider resolves and it is
the distinguished local provider, the composed prompt equals that provider's
own prompt verbatim; the base prompt collaborator never contributes (the
theorem holds for an arbitrary `deps.basePrompt`, including a failing one, as
the witness exercises); and a (cache-handle, text) pair is unwrapped so the
text becomes the prompt and the handle becomes the returned cache handle. -/
theorem C2_sole_distinguished (deps : Deps) (ui : UserInput) (cl : ChatLog)
    (names : Option (List String)) (out : TurnOutput) (inst : APIInstance)
    (pr : PromptResult)
    (hinsts : (runCollect deps ui names).api_instances = [inst])
    (hkind : inst.api.kind = APIKind.custom)
    (hfetch : inst.api_prompt = Except.ok pr)
    (hextra : pyTruthy (selectExtra ui cl) = false)
    (hrun : async_update_llm_data deps ui cl names = Except.ok out) :
    out.finalPrompt = some pr.text ∧ out.prompt_object = pr.handleOpt := by
  obtain ⟨p0, po, hcomp, hne, hout⟩ := run_ok_elim deps ui cl names out hrun
  have hrw := composePrompt_single_custom deps.basePrompt inst
    (runCollect deps ui names).api_prompts hkind
  rw [hinsts, hrw, hfetch] at hcomp
  simp only [Except.ok.injEq, Prod.mk.injEq] at hcomp
  obtain ⟨h1, h2⟩ := hcomp
  subst hout
  constructor
  · rw [finalPrompt_successOutput deps ui cl names p0 po hne]
    simp [applyExtra, hextra, h1]
  · simp [successOutput, h2]

/-- Concrete instance of `C2_sole_distinguished`: the distinguished provider
with a cached prompt pair, under a base prompt collaborator that would fail if
it were invoked. -/
theorem C2_witness :
    (successOutput wDepsTemplateFail wUI wCL (some [LLM_API_ID])
        "Custom complete prompt." (some "handle1")).finalPrompt
      = some "Custom complete prompt."
    ∧ (successOutput wDepsTemplateFail wUI wCL (some [LLM_API_ID])
        "Custom complete prompt." (some "handle1")).prompt_object
      = some "handle1" :=
  C2_sole_distinguished wDepsTemplateFail wUI wCL (some [LLM_API_ID])
    (successOutput wDepsTemplateFail wUI wCL (some [LLM_API_ID])
      "Custom complete prompt." (some "handle1"))
    wInstCustom (PromptResult.cached "handle1" "Custom complete prompt.")
    rfl rfl rfl rfl rfl

/-- Claim C3: for every turn in which zero providers resolve (the requested
name list is absent, empty, or every name failed to resolve), the composed
prompt equals exactly the base prompt rendered by the base prompt
collaborator, with no fragment concatenation, and no effective provider is
installed on the turn. -/
theorem C3_no_provider (deps : Deps) (ui : UserInput) (cl : ChatLog)
    (names : Option (List String)) (out : TurnOutput) (bp : PromptResult)
    (hzero : names = none ∨ names = some ([] : List String) ∨
      ∀ n ∈ names.getD [],
        (resolveName deps (mkLLMContext ui) n).toOption = none)
    (hbase : deps.basePrompt = Except.ok bp)
    (hextra : pyTruthy (selectExtra ui cl) = false)
    (hrun : async_update_llm_data deps ui cl names = Except.ok out) :
    out.finalPrompt = some bp.text ∧ out.chat_log.llm_api = none := by
  have hinsts : (runCollect deps ui names).api_instances = [] := by
    rcases hzero with h | h | h
    · subst h; rfl
    · subst h; rfl
    · rw [runCollect, collect_api_instances, List.filterMap_eq_nil_iff]
      exact h
  obtain ⟨p0, po, hcomp, hne, hout⟩ := run_ok_elim deps ui cl names out hrun
  rw [hinsts, hbase, composePrompt_nil_ok] at hcomp
  simp only [Except.ok.injEq, Prod.mk.injEq] at hcomp
  obtain ⟨h1, h2⟩ := hcomp
  subst hout
  constructor
  · rw [finalPrompt_successOutput deps ui cl names p0 po hne]
    simp [applyExtra, hextra, h1]
  · simp [successOutput, unifyProvider, hinsts]

/-- Concrete instance of `C3_no_provider`: a single name whose resolution
fails behaves as if no provider had been requested. -/
theorem C3_witness :
    (successOutput wDeps wUI wCL (some ["bad_provider"]) "Base." none).finalPrompt
      = some "Base."
    ∧ (successOutput wDeps wUI wCL
        (some ["bad_provider"]) "Base." none).chat_log.llm_api = none :=
  C3_no_provider wDeps wUI wCL (some ["bad_provider"])
    (successOutput wDeps wUI wCL (some ["bad_provider"]) "Base." none)
    (PromptResult.plain "Base.")
    (Or.inr (Or.inr (by decide))) rfl rfl rfl

/-- Claim C4: for every requested name list, the sequence of resolved
providers equals the input list minus exactly the names whose resolution
failed, preserved in input order with no reordering and no duplication
(`filterMap` of the resolution outcomes); each resolution failure is logged
with its error; and a list whose every name fails behaves identically to an
empty list in every turn-relevant accumulator. -/
theorem C4_resolution_isolation (resolve : String → Except HAError APIInstance)
    (ns : List String) :
    (collectAPIs resolve ns).api_instances
      = ns.filterMap (fun n => (resolve n).toOption)
    ∧ (∀ n e, n ∈ ns → resolve n = Except.error e →
        (n, e) ∈ (collectAPIs resolve ns).logged)
    ∧ ((∀ n ∈ ns, (resolve n).toOption = none) →
        (collectAPIs resolve ns).api_instances
          = (collectAPIs resolve []).api_instances
        ∧ (collectAPIs resolve ns).all_tools = (collectAPIs resolve []).all_tools
        ∧ (collectAPIs resolve ns).api_prompts
          = (collectAPIs resolve []).api_prompts) := by
  refine ⟨collect_api_instances resolve ns, ?_, ?_⟩
  · intro n e hn hres
    exact collect_logged_of_error resolve hn hres
  · intro hall
    have hinsts : (collectAPIs resolve ns).api_instances = [] := by
      rw [collect_api_instances, List.filterMap_eq_nil_iff]
      exact hall
    refine ⟨by rw [hinsts]; rfl, ?_, ?_⟩
    · rw [collect_all_tools, hinsts]; rfl
    · rw [collect_api_prompts, hinsts]; rfl

/-- Concrete instance of `C4_resolution_isolation`: a failing name is logged
with the error its resolution raised. -/
theorem C4_witness :
    ("bad_provider", HAError.otherErr "no such api")
      ∈ (collectAPIs wResolve ["weather", "bad_provider"]).logged :=
  (C4_resolution_isolation wResolve ["weather", "bad_provider"]).2.1
    "bad_provider" (HAError.otherErr "no such api") (by decide) (by decide)

/-- Claim C5 counterexample: on a concrete turn whose base prompt rendering
raises a templating error, the turn-level error carries the user-facing
message "Sorry, I had a problem with my template" — not the claim's quoted
fixed message "a problem occurred while preparing the response". -/
theorem C5_counterexample :
    async_update_llm_data wDepsTemplateFail wUI wCL (some []) =
      Except.error (TurnError.converse "conv1" "Error rendering prompt"
        "Sorry, I had a problem with my template")
    ∧ "Sorry, I had a problem with my template" ≠
        "a problem occurred while preparing the response" :=
  ⟨rfl, by decide⟩

/-- Claim C5 (amended): for every turn in which rendering the base prompt
raises a templating error (the base prompt being rendered because the
sole-distinguished branch is not selected), the engine raises a turn-level
conversion error carrying the turn's conversation identifier and the fixed
user-facing fallback message "Sorry, I had a problem with my template", and
installs nothing on the turn: the error return carries no prompt, no
effective provider, no persisted extra system prompt and no trace record. -/
theorem C5_template_error (deps : Deps) (ui : UserInput) (cl : ChatLog)
    (names : Option (List String)) (msg : String)
    (hbase : deps.basePrompt = Except.error (HAError.templateErr msg))
    (hshape : ((runCollect deps ui names).api_instances.any isCustomAPI
        && (runCollect deps ui names).api_instances.length == 1) = false) :
    async_update_llm_data deps ui cl names =
      Except.error (TurnError.converse cl.conversation_id
        "Error rendering prompt" "Sorry, I had a problem with my template") := by
  simp only [async_update_llm_data, hbase]
  rw [composePrompt_base_error (HAError.templateErr msg)
    (runCollect deps ui names).api_instances
    (runCollect deps ui names).api_prompts hshape]

/-- Concrete instance of `C5_template_error`: no provider requested and a
failing template. -/
theorem C5_witness :
    async_update_llm_data wDepsTemplateFail wUI wCL (some ["weather"]) =
      Except.error (TurnError.converse "conv1" "Error rendering prompt"
        "Sorry, I had a problem with my template") :=
  C5_template_error wDepsTemplateFail wUI wCL (some ["weather"]) "bad template"
    rfl (by decide)

/-- Claim C6: for every turn in which more than one provider resolves, the
installed effective provider is a synthetic instance referencing the first
resolved provider's api identity, carrying the composed prompt (as installed
on the turn), the turn's shared context and the standard argument serializer,
and whose tool list is the exact ordered concatenation — not deduplicated,
nothing omitted — of every resolved provider's tools in resolution order. -/
theorem C6_synthetic_provider (deps : Deps) (ui : UserInput) (cl : ChatLog)
    (names : Option (List String)) (out : TurnOutput) (first b : APIInstance)
    (t : List APIInstance)
    (hinsts : (runCollect deps ui names).api_instances = first :: b :: t)
    (hrun : async_update_llm_data deps ui cl names = Except.ok out) :
    ∃ p, out.finalPrompt = some p
      ∧ out.chat_log.llm_api = some ⟨first.api,
          Except.ok (PromptResult.plain p), mkLLMContext ui,
          (runCollect deps ui names).all_tools, some SerializerKind.selector⟩
      ∧ (runCollect deps ui names).all_tools =
          ((runCollect deps ui names).api_instances.map (fun a => a.tools)).flatten := by
  obtain ⟨p0, po, hcomp, hne, hout⟩ := run_ok_elim deps ui cl names out hrun
  subst hout
  refine ⟨applyExtra p0 (selectExtra ui cl),
    finalPrompt_successOutput deps ui cl names p0 po hne, ?_, ?_⟩
  · simp [successOutput, unifyProvider, hinsts]
  · simpa [runCollect] using
      collect_all_tools (resolveName deps (mkLLMContext ui)) (names.getD [])

/-- Concrete instance of `C6_synthetic_provider`: two generic providers. -/
theorem C6_witness :
    ∃ p, (successOutput wDeps wUI wCL (some ["weather", "traffic"])
        "Base.\nTools: weather.\nTools: traffic." none).finalPrompt = some p
      ∧ (successOutput wDeps wUI wCL (some ["weather", "traffic"])
          "Base.\nTools: weather.\nTools: traffic." none).chat_log.llm_api
        = some ⟨wInstWeather.api, Except.ok (PromptResult.plain p),
            mkLLMContext wUI,
            (runCollect wDeps wUI (some ["weather", "traffic"])).all_tools,
            some SerializerKind.selector⟩
      ∧ (runCollect wDeps wUI (some ["weather", "traffic"])).all_tools =
          ((runCollect wDeps wUI
            (some ["weather", "traffic"])).api_instances.map
              (fun a => a.tools)).flatten :=
  C6_synthetic_provider wDeps wUI wCL (some ["weather", "traffic"])
    (successOutput wDeps wUI wCL (some ["weather", "traffic"])
      "Base.\nTools: weather.\nTools: traffic." none)
    wInstWeather wInstTraffic [] rfl rfl

/-- Claim C7: for every turn in which an extra system prompt is present (the
per-call override preferred over the value stored on the turn, by
truthiness), that value is appended to the composed prompt after a single
newline as the final segment, regardless of which composition policy produced
the composed prompt, and the selected value is persisted back onto the turn
state. -/
theorem C7_extra_override (deps : Deps) (ui : UserInput) (cl : ChatLog)
    (names : Option (List String)) (out : TurnOutput) (p0 : String)
    (po : Option String) (s : String)
    (hcomp : composePrompt deps.basePrompt (runCollect deps ui names).api_instances
        (runCollect deps ui names).api_prompts = Except.ok (p0, po))
    (hsel : selectExtra ui cl = some s) (hs : s ≠ "")
    (hrun : async_update_llm_data deps ui cl names = Except.ok out) :
    out.finalPrompt = some (p0 ++ "\n" ++ s)
    ∧ out.chat_log.extra_system_prompt = some s :=
  run_extra_applied deps ui cl names out p0 po s hcomp hsel hs hrun

/-- Concrete instance of `C7_extra_override`: a per-call override under the
no-provider composition policy. -/
theorem C7_witness :
    (successOutput wDeps wUIExtra wCL (some []) "Base." none).finalPrompt
      = some "Base.\nExtra instructions."
    ∧ (successOutput wDeps wUIExtra wCL
        (some []) "Base." none).chat_log.extra_system_prompt
      = some "Extra instructions." :=
  C7_extra_override wDeps wUIExtra wCL (some [])
    (successOutput wDeps wUIExtra wCL (some []) "Base." none)
    "Base." none "Extra instructions." rfl rfl (by decide) rfl

/-- Claim C8: for every turn in which a provider resolves successfully but the
subsequent retrieval of its prompt fragment raises a recoverable provider
error, that provider and its tools are still included among the resolved
instances and in the accumulated tool list (which feeds the effective
provider), while its prompt fragment is omitted from the collected fragments
— so the providers contributing tools strictly outnumber the providers
contributing prompt fragments. -/
theorem C8_tools_without_fragment
    (resolve : String → Except HAError APIInstance) (ns : List String)
    (n : String) (inst : APIInstance) (e : HAError)
    (hn : n ∈ ns) (hres : resolve n = Except.ok inst)
    (hfail : inst.api_prompt = Except.error e) :
    inst ∈ (collectAPIs resolve ns).api_instances
    ∧ (∀ t ∈ inst.tools, t ∈ (collectAPIs resolve ns).all_tools)
    ∧ (collectAPIs resolve ns).api_prompts =
        (collectAPIs resolve ns).api_instances.filterMap fetchedText
    ∧ (collectAPIs resolve ns).api_prompts.length <
        (collectAPIs resolve ns).api_instances.length := by
  have hmem : inst ∈ (collectAPIs resolve ns).api_instances := by
    rw [collect_api_instances]
    exact List.mem_filterMap.mpr ⟨n, hn, by rw [hres]; rfl⟩
  have hnone : fetchedText inst = none := by simp [fetchedText, hfail]
  refine ⟨hmem, ?_, collect_api_prompts _ _, ?_⟩
  · intro t ht
    rw [collect_all_tools]
    exact List.mem_flatten.mpr ⟨inst.tools, List.mem_map.mpr ⟨inst, hmem, rfl⟩, ht⟩
  · rw [collect_api_prompts]
    exact length_filterMap_lt_of_mem_none fetchedText _ hmem hnone

/-- Concrete instance of `C8_tools_without_fragment`: the broken provider's
tools survive while its fragment is dropped. -/
theorem C8_witness :
    wInstBroken ∈ (collectAPIs wResolve ["weather", "broken", "traffic"]).api_instances
    ∧ (∀ t ∈ wInstBroken.tools,
        t ∈ (collectAPIs wResolve ["weather", "broken", "traffic"]).all_tools)
    ∧ (collectAPIs wResolve ["weather", "broken", "traffic"]).api_prompts =
        (collectAPIs wResolve
          ["weather", "broken", "traffic"]).api_instances.filterMap fetchedText
    ∧ (collectAPIs wResolve ["weather", "broken", "traffic"]).api_prompts.length <
        (collectAPIs wResolve ["weather", "broken", "traffic"]).api_instances.length :=
  C8_tools_without_fragment wResolve ["weather", "broken", "traffic"] "broken"
    wInstBroken (HAError.otherErr "prompt fetch failed")
    (by decide) (by decide) rfl

/-- Claim C9: for every turn in which the per-call extra-system-prompt
override is the empty string and the turn state holds a previously stored
non-empty extra system prompt, the stored value is selected and appended: an
empty-string override neither clears the stored value nor takes precedence
over it, because selection is by truthiness rather than presence. -/
theorem C9_empty_override (deps : Deps) (ui : UserInput) (cl : ChatLog)
    (names : Option (List String)) (out : TurnOutput) (s p0 : String)
    (po : Option String)
    (hui : ui.extra_system_prompt = some "")
    (hcl : cl.extra_system_prompt = some s) (hs : s ≠ "")
    (hcomp : composePrompt deps.basePrompt (runCollect deps ui names).api_instances
        (runCollect deps ui names).api_prompts = Except.ok (p0, po))
    (hrun : async_update_llm_data deps ui cl names = Except.ok out) :
    out.chat_log.extra_system_prompt = some s
    ∧ out.finalPrompt = some (p0 ++ "\n" ++ s) := by
  have hsel : selectExtra ui cl = some s := by
    simp [selectExtra, pyOr, pyTruthy, hui, hcl]
  obtain ⟨h1, h2⟩ := run_extra_applied deps ui cl names out p0 po s hcomp hsel hs hrun
  exact ⟨h2, h1⟩

/-- Concrete instance of `C9_empty_override`: an empty-string override with a
stored extra system prompt, on the multi/external composition policy. -/
theorem C9_witness :
    (successOutput wDeps wUIEmptyExtra wCLStored (some ["weather"])
        "Base.\nTools: weather." none).chat_log.extra_system_prompt
      = some "Stored extra."
    ∧ (successOutput wDeps wUIEmptyExtra wCLStored (some ["weather"])
        "Base.\nTools: weather." none).finalPrompt
      = some "Base.\nTools: weather.\nStored extra." :=
  C9_empty_override wDeps wUIEmptyExtra wCLStored (some ["weather"])
    (successOutput wDeps wUIEmptyExtra wCLStored (some ["weather"])
      "Base.\nTools: weather." none)
    "Stored extra." "Base.\nTools: weather." none rfl rfl (by decide) rfl rfl

/-- Claim C10: on every successful turn, publishing the final prompt replaces
only element 0 of the turn's message list with a system message containing
the final prompt text, leaving every message at index 1 and beyond unchanged;
and success presupposes the message list was non-empty — on an empty list the
run fails instead of returning a turn state. -/
theorem C10_leading_message_frame (deps : Deps) (ui : UserInput) (cl : ChatLog)
    (names : Option (List String)) (out : TurnOutput)
    (hrun : async_update_llm_data deps ui cl names = Except.ok out) :
    cl.content ≠ []
    ∧ ∃ p, out.chat_log.content = cl.content.set 0 (Content.system p)
        ∧ out.finalPrompt = some p
        ∧ out.chat_log.content.length = cl.content.length
        ∧ ∀ i, 1 ≤ i → out.chat_log.content[i]? = cl.content[i]? := by
  obtain ⟨p0, po, hcomp, hne, hout⟩ := run_ok_elim deps ui cl names out hrun
  subst hout
  refine ⟨hne, applyExtra p0 (selectExtra ui cl), rfl,
    finalPrompt_successOutput deps ui cl names p0 po hne, ?_, ?_⟩
  · simp [successOutput]
  · intro i hi
    have hne0 : (0 : Nat) ≠ i := by omega
    simp only [successOutput]
    exact List.getElem?_set_ne hne0

/-- Concrete instance of `C10_leading_message_frame`: on a two-message list
only the leading system message changes. -/
theorem C10_witness :
    wCL.content ≠ []
    ∧ ∃ p, (successOutput wDeps wUI wCL (some ["weather"])
          "Base.\nTools: weather." none).chat_log.content
        = wCL.content.set 0 (Content.system p)
        ∧ (successOutput wDeps wUI wCL (some ["weather"])
            "Base.\nTools: weather." none).finalPrompt = some p
        ∧ (successOutput wDeps wUI wCL (some ["weather"])
            "Base.\nTools: weather." none).chat_log.content.length
          = wCL.content.length
        ∧ ∀ i, 1 ≤ i →
            (successOutput wDeps wUI wCL (some ["weather"])
              "Base.\nTools: weather." none).chat_log.content[i]?
            = wCL.content[i]? :=
  C10_leading_message_frame wDeps wUI wCL (some ["weather"])
    (successOutput wDeps wUI wCL (some ["weather"]) "Base.\nTools: weather." none)
    rfl

end CCLLM
